import Mathlib

/-!
# Verification of the `Tile` lifecycle/bookkeeping component (harp.gl)

Shallow embedding of `src/@here/harp-mapview/lib/Tile.ts`: the `Tile` class
state is a Lean structure, each method is a state-passing function, and
external collaborators (the map view's frame counter, the projection, the
loader) are passed in as explicit parameters. TypeScript numbers used as
frame counters and elevations are modelled as `Int`; object identity of the
text-element group list (needed for the copy-on-write discipline) is
modelled with an explicit heap of store contents indexed by `Nat` ids.

The classes `TextElementGroupPriorityList` / `TextElementGroup` and the
helper `MapViewUtils.estimateObject3dSize` are code of this repository that
is not included under `src/`; their definitions below are modelled from the
spec and say so in their doc comments.
-/

namespace HarpTile

/-- A text element (label). In the source a `TextElement` is a mutable object
with a `priority` field; labels are treated as immutable once placed in a
group, so we model one as an id plus its priority. -/
structure TextElement where
  id : Nat
  priority : Int
  deriving DecidableEq, Repr

/-- Modelled from the spec: a group of labels sharing one priority
(`TextElementGroup`, not included under `src/`). -/
structure TextElementGroup where
  priority : Int
  elements : List TextElement
  deriving DecidableEq, Repr

/-- Modelled from the spec: `TextElementGroupPriorityList` (not included under
`src/`): a mapping from integer priority to the group of labels at that
priority, kept here as an association list. -/
structure TextElementGroupPriorityList where
  groups : List TextElementGroup
  deriving DecidableEq, Repr

instance : Inhabited TextElementGroupPriorityList := ⟨⟨[]⟩⟩

/-- Modelled from the spec: `add(label)` inserts into the group keyed by the
label's priority, creating the group if absent. -/
def TextElementGroupPriorityList.add (s : TextElementGroupPriorityList)
    (te : TextElement) : TextElementGroupPriorityList :=
  if s.groups.any (fun g => g.priority == te.priority) then
    ⟨s.groups.map fun g =>
      if g.priority == te.priority then ⟨g.priority, g.elements ++ [te]⟩ else g⟩
  else
    ⟨s.groups ++ [⟨te.priority, [te]⟩]⟩

/-- Modelled from the spec: `remove(label)` removes from the matching-priority
group only if the label's priority field still matches the priority it was
inserted under; returns `none` (the source returns `false`) otherwise or if
not found. -/
def TextElementGroupPriorityList.remove (s : TextElementGroupPriorityList)
    (te : TextElement) : Option TextElementGroupPriorityList :=
  if s.groups.any (fun g => g.priority == te.priority && g.elements.contains te) then
    some ⟨s.groups.map fun g =>
      if g.priority == te.priority then ⟨g.priority, g.elements.erase te⟩ else g⟩
  else
    none

/-- Modelled from the spec: `count()` is the total number of labels over all
priority groups. -/
def TextElementGroupPriorityList.count (s : TextElementGroupPriorityList) : Nat :=
  (s.groups.map fun g => g.elements.length).sum

/-- Modelled from the spec: `clone()` produces a new store with independent
group objects referencing the same label instances. Its contents are equal as
a value; the fresh identity is realized by the heap in `Tile`. -/
def TextElementGroupPriorityList.clone (s : TextElementGroupPriorityList) :
    TextElementGroupPriorityList :=
  ⟨s.groups.map fun g => ⟨g.priority, g.elements⟩⟩

/-- The world-space oriented bounding box (`OrientedBox3` from harp-geoutils,
an external collaborator). Its internals are irrelevant to the claims, so it
is an opaque record of its position and shape data. -/
structure OrientedBox3 where
  position : Int
  extents : Int
  orientation : Int
  deriving DecidableEq, Repr

/-- The geographic bounding box of the tile (`GeoBox`). The tile mutates only
the two altitude fields; the horizontal extent is fixed by the tile key. -/
structure GeoBox where
  southWestLat : Int
  southWestLon : Int
  southWestAltitude : Int
  northEastLat : Int
  northEastLon : Int
  northEastAltitude : Int
  deriving DecidableEq, Repr

/-- `ElevationRange`: min/max elevation in meters plus the optional
calculation-status tag. -/
structure ElevationRange where
  minElevation : Int
  maxElevation : Int
  calculationStatus : Option Nat
  deriving DecidableEq, Repr

/-- A renderable object of the tile (`TileObject`). For resource accounting
only its identity key, visibility flag and estimated sizes matter. -/
structure TileObject where
  id : Nat
  visible : Bool
  heapSize : Nat
  gpuSize : Nat
  deriving DecidableEq, Repr

/-- The decoded payload contract (`DecodedTile`): list of renderable
geometries (possibly empty, kept as ids), optional explicit bounding box,
optional max-geometry-height, optional attribution-id list, optional raw byte
size (`tileInfo.numBytes`), optional decode-duration metric. -/
structure DecodedTile where
  geometries : List Nat
  boundingBox : Option OrientedBox3
  maxGeometryHeight : Option Int
  tileInfoNumBytes : Option Nat
  copyrightHolderIds : Option (List Nat)
  decodeTime : Option Int
  deriving DecidableEq, Repr

/-- `TileResourceInfo`: the derived resource-usage snapshot. -/
structure TileResourceInfo where
  heapSize : Nat
  gpuSize : Nat
  num3dObjects : Nat
  numTextElements : Nat
  numUserTextElements : Nat
  deriving DecidableEq, Repr

/-- The state of one `Tile`. Field names follow the source (`m_` prefixes
dropped). The live text-element group list `m_textElementGroups` is modelled
as the index `liveStore` into `storeHeap`, so that object identity (which the
copy-on-write discipline is about) is observable. -/
structure Tile where
  frameNumLastRequested : Int
  disposed : Bool
  forceHasGeometryFlag : Option Bool
  objects : List TileObject
  decodedTile : Option DecodedTile
  tileLoader : Option Nat
  tileGeometryLoader : Option Nat
  storeHeap : List TextElementGroupPriorityList
  liveStore : Nat
  textElementsChanged : Option Bool
  pathBlockingElements : List Nat
  resourceInfo : Option TileResourceInfo
  geoBox : GeoBox
  elevationRange : ElevationRange
  maxGeometryHeight : Option Int
  boundingBox : OrientedBox3
  worldCenter : Int
  preparedTextPaths : Option (List Nat)
  animatedExtrusionTileHandler : Option Nat
  copyrightInfo : Option (List Nat)
  deriving DecidableEq, Repr

/-- The contents of the tile's current (live) text-element group list,
`this.m_textElementGroups` / the `textElementGroups` getter. -/
def Tile.liveContents (t : Tile) : TextElementGroupPriorityList :=
  t.storeHeap.getD t.liveStore default

/-- `get isVisible()`: `frameNumLastRequested >= mapView.frameNumber - 1`.
The map view's current frame number is the external parameter. -/
def Tile.isVisible (t : Tile) (frameNumber : Int) : Bool :=
  frameNumber - 1 ≤ t.frameNumLastRequested

/-- `set isVisible(visible)`: stamps `frameNumLastRequested` with the map
view's current frame number, or with the sentinel `-1`. -/
def Tile.setIsVisible (t : Tile) (visible : Bool) (frameNumber : Int) : Tile :=
  { t with frameNumLastRequested := if visible then frameNumber else -1 }

/-- `hasGeometry` getter: the override wins when set, otherwise the
renderable set must be non-empty. -/
def Tile.hasGeometry (t : Tile) : Bool :=
  match t.forceHasGeometryFlag with
  | none => t.objects.length != 0
  | some b => b

/-- `forceHasGeometry(value)`. -/
def Tile.forceHasGeometry (t : Tile) (value : Option Bool) : Tile :=
  { t with forceHasGeometryFlag := value }

/-- `hasTextElements()`. -/
def Tile.hasTextElements (t : Tile) : Bool :=
  t.liveContents.count > 0

/-- `invalidateResourceInfo()`. -/
def Tile.invalidateResourceInfo (t : Tile) : Tile :=
  { t with resourceInfo := none }

/-- Modelled from the spec: the part of `computeResourceInfo` delegated to
`MapViewUtils.estimateObject3dSize` (not included under `src/`): sums the
estimated heap/GPU sizes over the renderable set, counting each shared
sub-resource (identity key `id`) only once. -/
def estimateObjectsSize (objects : List TileObject) : Nat × Nat :=
  (objects.foldl
    (fun acc o =>
      if acc.2.contains o.id then acc
      else ((acc.1.1 + o.heapSize, acc.1.2 + o.gpuSize), acc.2 ++ [o.id]))
    ((0, 0), ([] : List Nat))).1

/-- `computeResourceInfo()`: counts visible renderables, deduplicates shared
sub-resources by identity, sums `312` bytes per text element over all
priority groups, and adds the decoded payload's reported byte size. -/
def Tile.computeResourceInfo (t : Tile) : TileResourceInfo :=
  let num3dObjects := (t.objects.filter (fun o => o.visible)).length
  let agg := estimateObjectsSize t.objects
  let numTextElements := t.liveContents.count
  let heapSize := numTextElements * 312
  let aggHeap := agg.1 +
    (match t.decodedTile with
     | some d => d.tileInfoNumBytes.getD 0
     | none => 0)
  { heapSize := aggHeap + heapSize
    gpuSize := agg.2
    num3dObjects := num3dObjects
    numTextElements := numTextElements
    numUserTextElements := 0 }

/-- `getResourceInfo()`: returns the cached snapshot when present, otherwise
computes and caches a fresh one. -/
def Tile.getResourceInfo (t : Tile) : TileResourceInfo × Tile :=
  match t.resourceInfo with
  | some r => (r, t)
  | none =>
      let r := t.computeResourceInfo
      (r, { t with resourceInfo := some r })

/-- `addTextElement(textElement)`: adds to the live group list; then, if the
change flag is exactly `false`, replaces the live list by a clone (a fresh
heap cell) so the renderer treats the groups as new; finally sets the change
flag to `true`. -/
def Tile.addTextElement (t : Tile) (te : TextElement) : Tile :=
  let s := t.liveContents.add te
  let t1 : Tile := { t with storeHeap := t.storeHeap.set t.liveStore s }
  let t2 : Tile :=
    if t1.textElementsChanged == some false then
      { t1 with
        storeHeap := t1.storeHeap ++ [s.clone]
        liveStore := t1.storeHeap.length }
    else t1
  { t2 with textElementsChanged := some true }

/-- `removeTextElement(textElement)`: returns `false` (and leaves the state
alone) when the store's `remove` fails; otherwise applies the same
clone-when-consumed rule as `addTextElement` and sets the change flag. -/
def Tile.removeTextElement (t : Tile) (te : TextElement) : Bool × Tile :=
  match t.liveContents.remove te with
  | none => (false, t)
  | some s =>
      let t1 : Tile := { t with storeHeap := t.storeHeap.set t.liveStore s }
      let t2 : Tile :=
        if t1.textElementsChanged == some false then
          { t1 with
            storeHeap := t1.storeHeap ++ [s.clone]
            liveStore := t1.storeHeap.length }
        else t1
      (true, { t2 with textElementsChanged := some true })

/-- `clearTextElements()`: no-op when there are no text elements; otherwise
sets the change flag, empties the blocking elements and clears the live group
list in place. -/
def Tile.clearTextElements (t : Tile) : Tile :=
  if t.hasTextElements then
    { t with
      textElementsChanged := some true
      pathBlockingElements := []
      storeHeap := t.storeHeap.set t.liveStore default }
  else t

/-- `elevateGeoBox()`: writes the elevation range (max extended by the
max-geometry-height, defaulted to `0`) into the geo box's altitudes. -/
def Tile.elevateGeoBox (t : Tile) : Tile :=
  { t with
    geoBox :=
      { t.geoBox with
        southWestAltitude := t.elevationRange.minElevation
        northEastAltitude :=
          t.elevationRange.maxElevation + t.maxGeometryHeight.getD 0 } }

/-- `updateBoundingBox(newBoundingBox?)`: copies the explicit box (and its
position into the world center) when given one, otherwise projects the geo
box through the external projection. -/
def Tile.updateBoundingBox (t : Tile) (proj : GeoBox → OrientedBox3)
    (newBoundingBox : Option OrientedBox3) : Tile :=
  match newBoundingBox with
  | some b => { t with boundingBox := b, worldCenter := b.position }
  | none => { t with boundingBox := proj t.geoBox }

/-- `set elevationRange(elevationRange)`: no-op when min, max and status all
equal the stored values; otherwise stores the range, re-elevates the geo box
and, only when a max-geometry-height is known (the decoded payload supplied
no explicit bounding box), recomputes the world bounding box. -/
def Tile.setElevationRange (t : Tile) (proj : GeoBox → OrientedBox3)
    (er : ElevationRange) : Tile :=
  if er.minElevation == t.elevationRange.minElevation &&
     er.maxElevation == t.elevationRange.maxElevation &&
     er.calculationStatus == t.elevationRange.calculationStatus then
    t
  else
    let t1 : Tile := { t with elevationRange := er }
    let t2 := t1.elevateGeoBox
    if t2.maxGeometryHeight.isSome then t2.updateBoundingBox proj none else t2

/-- `set decodedTile(decodedTile)`: stores the payload and invalidates the
resource info; for a real payload, forces `hasGeometry` when the geometry
list is empty, sets max-geometry-height to `undefined` when the payload
brings its own bounding box (else to its declared height or `0`), re-elevates
the geo box, updates the world bounding box (payload box wins) and copies any
attribution ids. Statistics and the data source's `requestUpdate` are
external fire-and-forget effects with no tile state. -/
def Tile.setDecodedTile (t : Tile) (proj : GeoBox → OrientedBox3)
    (dt : Option DecodedTile) : Tile :=
  let t0 : Tile := { t with decodedTile := dt, resourceInfo := none }
  match dt with
  | none => t0
  | some d =>
      let t1 := if d.geometries.length == 0 then t0.forceHasGeometry (some true) else t0
      let t2 : Tile :=
        { t1 with
          maxGeometryHeight :=
            match d.boundingBox with
            | some _ => none
            | none => some (d.maxGeometryHeight.getD 0) }
      let t3 := t2.elevateGeoBox
      let t4 := t3.updateBoundingBox proj d.boundingBox
      match d.copyrightHolderIds with
      | some ids => { t4 with copyrightInfo := some ids }
      | none => t4

/-- `removeDecodedTile()`. -/
def Tile.removeDecodedTile (t : Tile) : Tile :=
  { t with decodedTile := none, resourceInfo := none }

/-- `clear()`: drops all renderables (geometry/material/texture release being
external effects), resets the prepared text paths when present, disposes the
extrusion handler (keeping the reference, as the source does), clears the
text elements and invalidates the resource info. -/
def Tile.clear (t : Tile) : Tile :=
  let t1 : Tile := { t with objects := [] }
  let t2 : Tile :=
    { t1 with
      preparedTextPaths :=
        match t1.preparedTextPaths with
        | some _ => some []
        | none => none }
  let t3 := t2.clearTextElements
  { t3 with resourceInfo := none }

/-- `dispose()`: guarded by the disposed flag; cancels and drops the loader,
disposes and drops the geometry loader, clears, marks disposed, and resets
`frameNumLastRequested` to `0` so the tile is removable from the cache. -/
def Tile.dispose (t : Tile) : Tile :=
  if t.disposed then t
  else
    let t1 : Tile := if t.tileLoader.isSome then { t with tileLoader := none } else t
    let t2 : Tile :=
      if t1.tileGeometryLoader.isSome then { t1 with tileGeometryLoader := none } else t1
    let t3 := t2.clear
    { t3 with disposed := true, frameNumLastRequested := 0 }

/-- `resetVisibilityCounter()` counterpart is not needed by the claims; a
baseline tile state used by concrete witnesses, mirroring the field
initializers of the class. -/
def initialTile : Tile :=
  { frameNumLastRequested := -1
    disposed := false
    forceHasGeometryFlag := none
    objects := []
    decodedTile := none
    tileLoader := none
    tileGeometryLoader := none
    storeHeap := [default]
    liveStore := 0
    textElementsChanged := none
    pathBlockingElements := []
    resourceInfo := none
    geoBox :=
      { southWestLat := 0, southWestLon := 0, southWestAltitude := 0
        northEastLat := 1, northEastLon := 1, northEastAltitude := 0 }
    elevationRange := { minElevation := 0, maxElevation := 0, calculationStatus := none }
    maxGeometryHeight := none
    boundingBox := { position := 0, extents := 0, orientation := 0 }
    worldCenter := 0
    preparedTextPaths := none
    animatedExtrusionTileHandler := none
    copyrightInfo := none }

/-- `set textElementsChanged(changed)`: the external renderer resets the
change flag to `false` after consuming the group list. -/
def Tile.setTextElementsChanged (t : Tile) (changed : Bool) : Tile :=
  { t with textElementsChanged := some changed }

/-- The operations of the `Tile` public interface modelled in this file, used
to state trace properties ("stays true until ..."). The external projection
is supplied to `applyOp`, not stored in the operation. -/
inductive TileOp where
  | addText (te : TextElement)
  | removeText (te : TextElement)
  | clearText
  | setDecoded (d : Option DecodedTile)
  | removeDecoded
  | forceGeom (value : Option Bool)
  | setElevation (er : ElevationRange)
  | setVisible (visible : Bool) (frameNumber : Int)
  | invalidateInfo
  | readInfo
  | setChanged (changed : Bool)
  | addBlocking (e : Nat)
  | clearOp
  | disposeOp
  deriving DecidableEq, Repr

/-- Dispatch one operation against the tile state. -/
def applyOp (proj : GeoBox → OrientedBox3) (t : Tile) : TileOp → Tile
  | .addText te => t.addTextElement te
  | .removeText te => (t.removeTextElement te).2
  | .clearText => t.clearTextElements
  | .setDecoded d => t.setDecodedTile proj d
  | .removeDecoded => t.removeDecodedTile
  | .forceGeom v => t.forceHasGeometry v
  | .setElevation er => t.setElevationRange proj er
  | .setVisible b n => t.setIsVisible b n
  | .invalidateInfo => t.invalidateResourceInfo
  | .readInfo => t.getResourceInfo.2
  | .setChanged b => t.setTextElementsChanged b
  | .addBlocking e => { t with pathBlockingElements := t.pathBlockingElements ++ [e] }
  | .clearOp => t.clear
  | .disposeOp => t.dispose

/-- Run a sequence of operations. -/
def applyOps (proj : GeoBox → OrientedBox3) (t : Tile) (ops : List TileOp) : Tile :=
  ops.foldl (applyOp proj) t

/-- An operation ends the forced-`hasGeometry` override iff it is a
`forceHasGeometry` call with a value other than `true`. -/
def TileOp.endsForcedGeometry : TileOp → Bool
  | .forceGeom (some true) => false
  | .forceGeom _ => true
  | _ => false

/-- A trivial concrete projection for witnesses. -/
def trivialProj : GeoBox → OrientedBox3 :=
  fun _ => { position := 0, extents := 0, orientation := 0 }

/-- A concrete decoded payload with one geometry, used by witnesses. -/
def examplePayload : DecodedTile :=
  { geometries := [1], boundingBox := none, maxGeometryHeight := some 10
    tileInfoNumBytes := some 1000, copyrightHolderIds := none, decodeTime := none }

/-- A concrete decoded payload with zero geometries, used by witnesses. -/
def emptyPayload : DecodedTile :=
  { geometries := [], boundingBox := none, maxGeometryHeight := none
    tileInfoNumBytes := none, copyrightHolderIds := none, decodeTime := none }

/-- A concrete tile holding a loader, a geometry loader and a decoded
payload, used to examine what `dispose` releases. -/
def exampleLoadedTile : Tile :=
  { initialTile with
    tileLoader := some 5
    tileGeometryLoader := some 6
    decodedTile := some examplePayload }

/-- A concrete label used by witnesses. -/
def exampleLabel : TextElement := { id := 1, priority := 0 }

/-- A second concrete label used by witnesses. -/
def exampleLabel2 : TextElement := { id := 2, priority := 0 }

/-- A concrete tile whose resource info has just been computed and cached. -/
def exampleCachedTile : Tile := initialTile.getResourceInfo.2

/-- A concrete tile holding one label whose group list has been consumed by
the renderer (change flag reset to `false`). -/
def consumedTile : Tile :=
  (initialTile.addTextElement exampleLabel).setTextElementsChanged false

/-! ## Theorems -/

/-- C1: for every tile and every current frame number `N` supplied by the map
view, `isVisible` is true exactly when `frameNumLastRequested ≥ N - 1`; in
particular it is true when `frameNumLastRequested` is `N - 1` or `N`, and
false when `frameNumLastRequested ≤ N - 2`. -/
theorem isVisible_iff_lastRequested_ge_frame_sub_one (t : Tile) (N : Int) :
    (t.isVisible N = true ↔ N - 1 ≤ t.frameNumLastRequested) ∧
    (t.frameNumLastRequested = N - 1 ∨ t.frameNumLastRequested = N →
      t.isVisible N = true) ∧
    (t.frameNumLastRequested ≤ N - 2 → t.isVisible N = false) := by
  refine ⟨by simp [Tile.isVisible], ?_, ?_⟩
  · rintro (h | h) <;> simp [Tile.isVisible, h]
  · intro h
    simp only [Tile.isVisible, decide_eq_false_iff_not, not_le]
    omega

/-- Witness for C1 at a concrete tile and frame. -/
theorem isVisible_iff_lastRequested_ge_frame_sub_one_witness :
    ({ initialTile with frameNumLastRequested := 4 } : Tile).isVisible 5 = true ∧
    ({ initialTile with frameNumLastRequested := 3 } : Tile).isVisible 5 = false := by
  refine ⟨?_, ?_⟩
  · exact (isVisible_iff_lastRequested_ge_frame_sub_one
      { initialTile with frameNumLastRequested := 4 } 5).2.1 (Or.inl rfl)
  · exact (isVisible_iff_lastRequested_ge_frame_sub_one
      { initialTile with frameNumLastRequested := 3 } 5).2.2 (by decide)

/-- C10: with the map view at frame `N ≥ 1`, the `isVisible` setter
round-trips with the getter: after `isVisible = true` the getter returns true
at frame `N`; after `isVisible = false` the getter returns false at frame `N`
and at every later frame `M ≥ N`. -/
theorem setIsVisible_roundtrip (t : Tile) (N M : Int) (hN : 1 ≤ N) :
    (t.setIsVisible true N).isVisible N = true ∧
    (t.setIsVisible false N).isVisible N = false ∧
    (N ≤ M → (t.setIsVisible false N).isVisible M = false) := by
  refine ⟨?_, ?_, ?_⟩
  · simp [Tile.setIsVisible, Tile.isVisible]
  · simp [Tile.setIsVisible, Tile.isVisible]; omega
  · intro hM
    simp only [Tile.setIsVisible, Tile.isVisible, if_neg (by simp : ¬(false = true))]
    simp only [decide_eq_false_iff_not, not_le]
    omega

/-- Witness for C10 at frames 1 and 2. -/
theorem setIsVisible_roundtrip_witness :
    (initialTile.setIsVisible true 1).isVisible 1 = true ∧
    (initialTile.setIsVisible false 1).isVisible 2 = false :=
  ⟨(setIsVisible_roundtrip initialTile 1 2 (by decide)).1,
   (setIsVisible_roundtrip initialTile 1 2 (by decide)).2.2 (by decide)⟩

/-- C9: `dispose()` is idempotent: a second call on an already-disposed tile
is the identity, so disposing twice equals disposing once. -/
theorem dispose_idempotent (t : Tile) :
    (t.dispose.disposed = true) ∧ t.dispose.dispose = t.dispose := by
  constructor
  · by_cases h : t.disposed
    · simp [Tile.dispose, h]
    · simp [Tile.dispose, h]
  · have hd : t.dispose.disposed = true := by
      by_cases h : t.disposed
      · simp [Tile.dispose, h]
      · simp [Tile.dispose, h]
    show t.dispose.dispose = t.dispose
    rw [Tile.dispose, if_pos hd]

/-- C6: an elevation-range update whose min, max and status all equal the
stored values is a no-op: the resulting state (in particular the stored
elevation range, the geo box and the world bounding box) is unchanged. -/
theorem setElevationRange_noop (t : Tile) (proj : GeoBox → OrientedBox3)
    (er : ElevationRange)
    (h1 : er.minElevation = t.elevationRange.minElevation)
    (h2 : er.maxElevation = t.elevationRange.maxElevation)
    (h3 : er.calculationStatus = t.elevationRange.calculationStatus) :
    t.setElevationRange proj er = t ∧
    (t.setElevationRange proj er).elevationRange = t.elevationRange ∧
    (t.setElevationRange proj er).geoBox = t.geoBox ∧
    (t.setElevationRange proj er).boundingBox = t.boundingBox := by
  have : t.setElevationRange proj er = t := by
    rw [Tile.setElevationRange, if_pos]
    simp [h1, h2, h3]
  exact ⟨this, by rw [this], by rw [this], by rw [this]⟩

/-- Witness for C6: an identical range applied to the baseline tile. -/
theorem setElevationRange_noop_witness :
    initialTile.setElevationRange (fun _ => { position := 7, extents := 7, orientation := 7 })
      { minElevation := 0, maxElevation := 0, calculationStatus := none } = initialTile :=
  (setElevationRange_noop initialTile
    (fun _ => { position := 7, extents := 7, orientation := 7 })
    { minElevation := 0, maxElevation := 0, calculationStatus := none }
    rfl rfl rfl).1

/-- C4, counterexample: the claim says a disposed tile is never visible at
any subsequent frame number, but `dispose` stores `0` into
`frameNumLastRequested`, so at frame number `1` the getter still returns
`0 ≥ 1 - 1`, i.e. true. -/
theorem dispose_isVisible_at_frame_one : initialTile.dispose.isVisible 1 = true := by
  decide

/-- C4, amended: after `dispose()` on a not-yet-disposed tile,
`frameNumLastRequested` is `0`, so `isVisible` is false exactly for frame
numbers `N ≥ 2` (hence for every frame strictly after the dispose frame,
the frame counter being at least `1`). -/
theorem dispose_isVisible_false_from_frame_two (t : Tile) (h : t.disposed = false) :
    t.dispose.frameNumLastRequested = 0 ∧
    ∀ N : Int, (t.dispose.isVisible N = false ↔ 2 ≤ N) := by
  have hf : t.dispose.frameNumLastRequested = 0 := by
    simp [Tile.dispose, h]
  refine ⟨hf, fun N => ?_⟩
  simp only [Tile.isVisible, hf, decide_eq_false_iff_not, not_le]
  omega

/-- Witness for C4's amended theorem at the baseline tile and frame 2. -/
theorem dispose_isVisible_false_from_frame_two_witness :
    initialTile.dispose.frameNumLastRequested = 0 ∧
    initialTile.dispose.isVisible 2 = false :=
  ⟨(dispose_isVisible_false_from_frame_two initialTile rfl).1,
   ((dispose_isVisible_false_from_frame_two initialTile rfl).2 2).mpr (by decide)⟩

/-- Helper: when no max-geometry-height is established, an elevation-range
update never touches the world bounding box. -/
theorem setElevationRange_boundingBox_of_no_maxGeometryHeight (s : Tile)
    (proj : GeoBox → OrientedBox3) (er : ElevationRange)
    (h : s.maxGeometryHeight = none) :
    (s.setElevationRange proj er).boundingBox = s.boundingBox := by
  rw [Tile.setElevationRange]
  split
  · rfl
  · simp [Tile.elevateGeoBox, h]

/-- C5: assigning a decoded payload that carries an explicit bounding box `B`
makes the tile's world bounding box equal to `B` and clears
max-geometry-height, and any subsequent elevation-range update leaves the
world bounding box unchanged. -/
theorem decodedTile_boundingBox_authoritative (t : Tile)
    (proj : GeoBox → OrientedBox3) (d : DecodedTile) (B : OrientedBox3)
    (hB : d.boundingBox = some B) :
    (t.setDecodedTile proj (some d)).boundingBox = B ∧
    (t.setDecodedTile proj (some d)).maxGeometryHeight = none ∧
    ∀ er : ElevationRange,
      ((t.setDecodedTile proj (some d)).setElevationRange proj er).boundingBox = B := by
  have key : (t.setDecodedTile proj (some d)).boundingBox = B ∧
      (t.setDecodedTile proj (some d)).maxGeometryHeight = none := by
    simp only [Tile.setDecodedTile, hB, Tile.forceHasGeometry, Tile.elevateGeoBox,
      Tile.updateBoundingBox]
    cases d.copyrightHolderIds <;> cases hG : (d.geometries.length == 0) <;> simp
  refine ⟨key.1, key.2, fun er => ?_⟩
  rw [setElevationRange_boundingBox_of_no_maxGeometryHeight _ proj er key.2]
  exact key.1

/-- Witness for C5: a concrete payload with an explicit bounding box on the
baseline tile, followed by a real elevation-range update. -/
theorem decodedTile_boundingBox_authoritative_witness :
    (initialTile.setDecodedTile (fun _ => { position := 9, extents := 9, orientation := 9 })
        (some { geometries := [], boundingBox := some { position := 3, extents := 4, orientation := 5 },
                maxGeometryHeight := none, tileInfoNumBytes := none,
                copyrightHolderIds := none, decodeTime := none })).boundingBox =
      { position := 3, extents := 4, orientation := 5 } ∧
    ((initialTile.setDecodedTile (fun _ => { position := 9, extents := 9, orientation := 9 })
        (some { geometries := [], boundingBox := some { position := 3, extents := 4, orientation := 5 },
                maxGeometryHeight := none, tileInfoNumBytes := none,
                copyrightHolderIds := none, decodeTime := none })).setElevationRange
        (fun _ => { position := 9, extents := 9, orientation := 9 })
        { minElevation := -10, maxElevation := 50, calculationStatus := some 2 }).boundingBox =
      { position := 3, extents := 4, orientation := 5 } :=
  ⟨(decodedTile_boundingBox_authoritative initialTile
      (fun _ => { position := 9, extents := 9, orientation := 9 })
      { geometries := [], boundingBox := some { position := 3, extents := 4, orientation := 5 },
        maxGeometryHeight := none, tileInfoNumBytes := none,
        copyrightHolderIds := none, decodeTime := none }
      { position := 3, extents := 4, orientation := 5 } rfl).1,
   (decodedTile_boundingBox_authoritative initialTile
      (fun _ => { position := 9, extents := 9, orientation := 9 })
      { geometries := [], boundingBox := some { position := 3, extents := 4, orientation := 5 },
        maxGeometryHeight := none, tileInfoNumBytes := none,
        copyrightHolderIds := none, decodeTime := none }
      { position := 3, extents := 4, orientation := 5 } rfl).2.2
      { minElevation := -10, maxElevation := 50, calculationStatus := some 2 }⟩

/-- Helper: `clear()` does not touch the loader, geometry-loader or
decoded-payload references. -/
theorem clear_preserves_references (t : Tile) :
    t.clear.decodedTile = t.decodedTile ∧
    t.clear.tileLoader = t.tileLoader ∧
    t.clear.tileGeometryLoader = t.tileGeometryLoader := by
  simp only [Tile.clear, Tile.clearTextElements]
  split <;> simp

/-- C8, counterexample: after `dispose()`, the tile still retains the
decoded-payload reference (only `removeDecodedTile` or payload replacement
drops it), contradicting "retains neither the loader reference nor the
decoded-payload reference". -/
theorem dispose_retains_decodedTile :
    exampleLoadedTile.dispose.decodedTile = some examplePayload := by
  decide

/-- C8, amended: `dispose()` on a not-yet-disposed tile releases the loader
reference and the geometry-loader reference, but leaves the decoded-payload
reference in place. -/
theorem dispose_releases_loader_keeps_payload (t : Tile) (h : t.disposed = false) :
    t.dispose.tileLoader = none ∧
    t.dispose.tileGeometryLoader = none ∧
    t.dispose.decodedTile = t.decodedTile := by
  rw [Tile.dispose, if_neg (by simp [h])]
  rcases hl : t.tileLoader with _ | l <;> rcases hg : t.tileGeometryLoader with _ | g <;>
    simp only [hl, hg, Option.isSome_none, Option.isSome_some, if_true, if_false,
      Bool.false_eq_true] <;>
    constructor <;>
    simp [clear_preserves_references, hl, hg]

/-- Witness for C8's amended theorem at the concrete loaded tile. -/
theorem dispose_releases_loader_keeps_payload_witness :
    exampleLoadedTile.dispose.tileLoader = none ∧
    exampleLoadedTile.dispose.tileGeometryLoader = none ∧
    exampleLoadedTile.dispose.decodedTile = exampleLoadedTile.decodedTile :=
  dispose_releases_loader_keeps_payload exampleLoadedTile rfl

/-- Helper: `getResourceInfo` on a state with no cached snapshot returns the
freshly computed snapshot of that state. -/
theorem getResourceInfo_of_uncached (t : Tile) (h : t.resourceInfo = none) :
    t.getResourceInfo.1 = t.computeResourceInfo := by
  rw [Tile.getResourceInfo, h]

/-- C2, counterexample: `addTextElement` does not invalidate the cached
resource-info snapshot, so a subsequent `getResourceInfo()` returns exactly
the snapshot computed before the mutation — which differs from a fresh
recomputation (the label count is stale). -/
theorem getResourceInfo_stale_after_addTextElement :
    (exampleCachedTile.addTextElement exampleLabel).getResourceInfo.1 =
      initialTile.getResourceInfo.1 ∧
    (exampleCachedTile.addTextElement exampleLabel).getResourceInfo.1 ≠
      (exampleCachedTile.addTextElement exampleLabel).computeResourceInfo := by
  decide

/-- C2, amended: replacing or clearing the decoded payload (and `clear()`)
do invalidate the cached snapshot, so `getResourceInfo()` after them returns
the freshly computed post-mutation snapshot, never a pre-mutation one; label
store mutations (`addTextElement` and friends) leave the cache untouched
unless `invalidateResourceInfo` is called. -/
theorem resourceInfo_invalidated_by_payload_mutations (t : Tile)
    (proj : GeoBox → OrientedBox3) (d : Option DecodedTile) :
    (t.setDecodedTile proj d).resourceInfo = none ∧
    t.removeDecodedTile.resourceInfo = none ∧
    t.clear.resourceInfo = none ∧
    (t.setDecodedTile proj d).getResourceInfo.1 =
      (t.setDecodedTile proj d).computeResourceInfo ∧
    t.removeDecodedTile.getResourceInfo.1 = t.removeDecodedTile.computeResourceInfo ∧
    (t.addTextElement exampleLabel).resourceInfo = t.resourceInfo := by
  have hset : (t.setDecodedTile proj d).resourceInfo = none := by
    rcases d with _ | d
    · rfl
    · simp only [Tile.setDecodedTile, Tile.forceHasGeometry, Tile.elevateGeoBox,
        Tile.updateBoundingBox]
      rcases d.copyrightHolderIds with _ | ids <;> rcases hb : d.boundingBox with _ | b <;>
        cases hG : (d.geometries.length == 0) <;> simp
  have hrm : t.removeDecodedTile.resourceInfo = none := rfl
  have hclear : t.clear.resourceInfo = none := by
    simp only [Tile.clear, Tile.clearTextElements]
  have hadd : (t.addTextElement exampleLabel).resourceInfo = t.resourceInfo := by
    simp only [Tile.addTextElement]
    split <;> rfl
  exact ⟨hset, hrm, hclear, getResourceInfo_of_uncached _ hset,
    getResourceInfo_of_uncached _ hrm, hadd⟩

/-- Helper: a clone carries the same contents as a value; only its identity
(heap cell) is fresh. -/
theorem clone_contents_eq (s : TextElementGroupPriorityList) : s.clone = s := by
  cases s with
  | mk groups => simp [TextElementGroupPriorityList.clone]

/-- Helper: `addTextElement` on a consumed store (change flag `false`) first
mutates the live store in place, then swaps the live pointer to a freshly
allocated clone of the already-mutated store. -/
theorem addTextElement_of_consumed (t : Tile) (te : TextElement)
    (hflag : t.textElementsChanged = some false) :
    t.addTextElement te =
      { t with
        storeHeap := (t.storeHeap.set t.liveStore (t.liveContents.add te)) ++
          [(t.liveContents.add te).clone]
        liveStore := t.storeHeap.length
        textElementsChanged := some true } := by
  simp [Tile.addTextElement, hflag]

/-- Helper: `addTextElement` on a store already marked changed mutates the
live store in place with no clone. -/
theorem addTextElement_of_changed (t : Tile) (te : TextElement)
    (hflag : t.textElementsChanged = some true) :
    t.addTextElement te =
      { t with
        storeHeap := t.storeHeap.set t.liveStore (t.liveContents.add te)
        textElementsChanged := some true } := by
  simp [Tile.addTextElement, hflag]

/-- C3, counterexample: with the change flag `false` (store consumed), the
source adds the element to the live store BEFORE cloning, so a reader still
holding the previous store reference does observe the mutation — the store
at the reader's heap cell is no longer what the reader saw. -/
theorem addTextElement_mutates_prior_reference :
    (consumedTile.addTextElement exampleLabel2).storeHeap.getD
        consumedTile.liveStore default ≠
      consumedTile.storeHeap.getD consumedTile.liveStore default := by
  decide

/-- C3, amended: when the change flag is `false` at the time of the call, the
element is first added to the live store in place (so the prior reader's
reference observes the addition) and only then is the store cloned; the
clone — at a fresh heap cell, distinct from the reader's — becomes the live
store, with contents equal to the mutated store. A second `add` without an
intervening consumed-reset mutates that same live store instance: the live
pointer and the heap size stay put and the contents gain the element. -/
theorem addTextElement_copy_on_write (t : Tile) (te te2 : TextElement)
    (hflag : t.textElementsChanged = some false)
    (hlive : t.liveStore < t.storeHeap.length) :
    (t.addTextElement te).liveStore = t.storeHeap.length ∧
    (t.addTextElement te).liveStore ≠ t.liveStore ∧
    (t.addTextElement te).storeHeap.getD t.liveStore default =
      t.liveContents.add te ∧
    (t.addTextElement te).liveContents = (t.liveContents.add te).clone ∧
    ((t.addTextElement te).addTextElement te2).liveStore =
      (t.addTextElement te).liveStore ∧
    ((t.addTextElement te).addTextElement te2).storeHeap.length =
      (t.addTextElement te).storeHeap.length ∧
    ((t.addTextElement te).addTextElement te2).liveContents =
      (t.addTextElement te).liveContents.add te2 := by
  have h1 := addTextElement_of_consumed t te hflag
  have hsetlen : (t.storeHeap.set t.liveStore (t.liveContents.add te)).length =
      t.storeHeap.length := List.length_set ..
  have hliveStore : (t.addTextElement te).liveStore = t.storeHeap.length := by
    rw [h1]
  have hne : (t.addTextElement te).liveStore ≠ t.liveStore := by
    rw [hliveStore]; omega
  have hold : (t.addTextElement te).storeHeap.getD t.liveStore default =
      t.liveContents.add te := by
    rw [h1]
    show ((t.storeHeap.set t.liveStore (t.liveContents.add te)) ++
      [(t.liveContents.add te).clone]).getD t.liveStore default = _
    rw [List.getD_eq_getElem?_getD,
      List.getElem?_append_left (by rw [hsetlen]; exact hlive),
      List.getElem?_set_eq_of_lt _ hlive]
    rfl
  have hflag' : (t.addTextElement te).textElementsChanged = some true := by
    rw [h1]
  have hnew : (t.addTextElement te).liveContents = (t.liveContents.add te).clone := by
    rw [Tile.liveContents, h1]
    show ((t.storeHeap.set t.liveStore (t.liveContents.add te)) ++
      [(t.liveContents.add te).clone]).getD t.storeHeap.length default = _
    rw [List.getD_eq_getElem?_getD, ← hsetlen, List.getElem?_concat_length]
    rfl
  have h2 := addTextElement_of_changed (t.addTextElement te) te2 hflag'
  have hlive' : (t.addTextElement te).liveStore < (t.addTextElement te).storeHeap.length := by
    rw [hliveStore, h1]
    show _ < ((t.storeHeap.set t.liveStore (t.liveContents.add te)) ++
      [(t.liveContents.add te).clone]).length
    rw [List.length_append, hsetlen]
    simp
  refine ⟨hliveStore, hne, hold, hnew, ?_, ?_, ?_⟩
  · rw [h2]
  · rw [h2]
    exact List.length_set ..
  · rw [Tile.liveContents, h2]
    show (((t.addTextElement te).storeHeap.set (t.addTextElement te).liveStore
      ((t.addTextElement te).liveContents.add te2)).getD
        (t.addTextElement te).liveStore default) = _
    rw [List.getD_eq_getElem?_getD, List.getElem?_set_eq_of_lt _ hlive']
    rfl

/-- Witness for C3's amended theorem: the concrete consumed tile; the live
pointer moves to a fresh cell while the reader's old cell holds the mutated
store. -/
theorem addTextElement_copy_on_write_witness :
    (consumedTile.addTextElement exampleLabel2).liveStore ≠ consumedTile.liveStore ∧
    (consumedTile.addTextElement exampleLabel2).storeHeap.getD
        consumedTile.liveStore default =
      consumedTile.liveContents.add exampleLabel2 ∧
    ((consumedTile.addTextElement exampleLabel2).addTextElement exampleLabel).liveStore =
      (consumedTile.addTextElement exampleLabel2).liveStore :=
  ⟨(addTextElement_copy_on_write consumedTile exampleLabel2 exampleLabel
      (by decide) (by decide)).2.1,
   (addTextElement_copy_on_write consumedTile exampleLabel2 exampleLabel
      (by decide) (by decide)).2.2.1,
   (addTextElement_copy_on_write consumedTile exampleLabel2 exampleLabel
      (by decide) (by decide)).2.2.2.2.1⟩

/-- Helper: the label-store operations never touch the forced-geometry
override. -/
theorem textOps_preserve_forceFlag (t : Tile) (te : TextElement) :
    (t.addTextElement te).forceHasGeometryFlag = t.forceHasGeometryFlag ∧
    (t.removeTextElement te).2.forceHasGeometryFlag = t.forceHasGeometryFlag ∧
    t.clearTextElements.forceHasGeometryFlag = t.forceHasGeometryFlag := by
  refine ⟨?_, ?_, ?_⟩
  · simp only [Tile.addTextElement]
    split <;> rfl
  · rw [Tile.removeTextElement]
    rcases t.liveContents.remove te with _ | s
    · rfl
    · simp only
      split <;> rfl
  · rw [Tile.clearTextElements]
    split <;> rfl

/-- Helper: `clear` (and hence the tail of `dispose`) never touches the
forced-geometry override. -/
theorem clear_preserves_forceFlag (t : Tile) :
    t.clear.forceHasGeometryFlag = t.forceHasGeometryFlag := by
  simp only [Tile.clear]
  exact (textOps_preserve_forceFlag _ exampleLabel).2.2

/-- Helper: `dispose` never touches the forced-geometry override. -/
theorem dispose_preserves_forceFlag (t : Tile) :
    t.dispose.forceHasGeometryFlag = t.forceHasGeometryFlag := by
  rw [Tile.dispose]
  split
  · rfl
  · show (Tile.clear _).forceHasGeometryFlag = _
    rw [clear_preserves_forceFlag]
    split <;> split <;> rfl

/-- Helper: `setElevationRange` never touches the forced-geometry override. -/
theorem setElevationRange_preserves_forceFlag (t : Tile)
    (proj : GeoBox → OrientedBox3) (er : ElevationRange) :
    (t.setElevationRange proj er).forceHasGeometryFlag = t.forceHasGeometryFlag := by
  rw [Tile.setElevationRange]
  split
  · rfl
  · simp only [Tile.elevateGeoBox, Tile.updateBoundingBox]
    split <;> rfl

/-- Helper: assigning any decoded payload preserves an already-true forced
override (an empty payload re-forces it to true, others leave it alone). -/
theorem setDecodedTile_preserves_forceFlag_true (t : Tile)
    (proj : GeoBox → OrientedBox3) (d : Option DecodedTile)
    (h : t.forceHasGeometryFlag = some true) :
    (t.setDecodedTile proj d).forceHasGeometryFlag = some true := by
  rcases d with _ | d
  · exact h
  · simp only [Tile.setDecodedTile, Tile.forceHasGeometry, Tile.elevateGeoBox,
      Tile.updateBoundingBox]
    rcases d.copyrightHolderIds with _ | ids <;> rcases d.boundingBox with _ | b <;>
      cases hG : (d.geometries.length == 0) <;> simp [h]

/-- Helper: any operation that is not a `forceHasGeometry` call with a value
other than `true` preserves a true forced-geometry override. -/
theorem applyOp_preserves_forceFlag_true (proj : GeoBox → OrientedBox3)
    (t : Tile) (op : TileOp) (h : t.forceHasGeometryFlag = some true)
    (hop : op.endsForcedGeometry = false) :
    (applyOp proj t op).forceHasGeometryFlag = some true := by
  cases op with
  | addText te => rw [applyOp, (textOps_preserve_forceFlag t te).1, h]
  | removeText te => rw [applyOp, (textOps_preserve_forceFlag t te).2.1, h]
  | clearText => rw [applyOp, (textOps_preserve_forceFlag t exampleLabel).2.2, h]
  | setDecoded d => exact setDecodedTile_preserves_forceFlag_true t proj d h
  | removeDecoded => exact h
  | forceGeom v =>
      rcases v with _ | b
      · simp [TileOp.endsForcedGeometry] at hop
      · cases b
        · simp [TileOp.endsForcedGeometry] at hop
        · rfl
  | setElevation er => rw [applyOp, setElevationRange_preserves_forceFlag, h]
  | setVisible b n => exact h
  | invalidateInfo => exact h
  | readInfo =>
      rw [applyOp, Tile.getResourceInfo]
      rcases t.resourceInfo with _ | r
      · exact h
      · exact h
  | setChanged b => exact h
  | addBlocking e => exact h
  | clearOp => rw [applyOp, clear_preserves_forceFlag, h]
  | disposeOp => rw [applyOp, dispose_preserves_forceFlag, h]

/-- Helper: a true forced-geometry override survives any trace free of
`forceHasGeometry` calls with values other than `true`. -/
theorem applyOps_preserves_forceFlag_true (proj : GeoBox → OrientedBox3)
    (ops : List TileOp) :
    ∀ t : Tile, t.forceHasGeometryFlag = some true →
      (∀ op ∈ ops, op.endsForcedGeometry = false) →
      (applyOps proj t ops).forceHasGeometryFlag = some true := by
  induction ops with
  | nil => intro t h _; exact h
  | cons op rest ih =>
      intro t h hops
      exact ih _ (applyOp_preserves_forceFlag_true proj t op h (hops op (by simp)))
        (fun o ho => hops o (by simp [ho]))

/-- Helper: assigning a decoded payload with zero geometries sets the
forced-geometry override to `true`. -/
theorem setDecodedTile_empty_forces_geometry (t : Tile)
    (proj : GeoBox → OrientedBox3) (d : DecodedTile) (hd : d.geometries = []) :
    (t.setDecodedTile proj (some d)).forceHasGeometryFlag = some true := by
  simp only [Tile.setDecodedTile, Tile.forceHasGeometry, Tile.elevateGeoBox,
    Tile.updateBoundingBox, hd]
  rcases d.copyrightHolderIds with _ | ids <;> rcases d.boundingBox with _ | b <;> simp

/-- C7, counterexample: the override can be ended without ever calling
`forceHasGeometry(undefined)` — a `forceHasGeometry(false)` call (a trace
containing no `forceGeom none`) already makes `hasGeometry` false. -/
theorem hasGeometry_ended_without_undefined :
    (∀ op ∈ [TileOp.forceGeom (some false)], op ≠ TileOp.forceGeom none) ∧
    (applyOps trivialProj (initialTile.setDecodedTile trivialProj (some emptyPayload))
      [TileOp.forceGeom (some false)]).hasGeometry = false := by
  decide

/-- C7, amended: after assigning a decoded payload with zero geometries,
`hasGeometry` is true, and it stays true across every trace of tile
operations containing no `forceHasGeometry` call with a value other than
`true` (i.e. until `forceHasGeometry` is called with `undefined` or
`false`). -/
theorem hasGeometry_after_empty_payload (t : Tile) (proj : GeoBox → OrientedBox3)
    (d : DecodedTile) (ops : List TileOp) (hd : d.geometries = [])
    (hops : ∀ op ∈ ops, op.endsForcedGeometry = false) :
    (t.setDecodedTile proj (some d)).hasGeometry = true ∧
    (applyOps proj (t.setDecodedTile proj (some d)) ops).hasGeometry = true := by
  have h0 := setDecodedTile_empty_forces_geometry t proj d hd
  constructor
  · rw [Tile.hasGeometry, h0]
  · rw [Tile.hasGeometry, applyOps_preserves_forceFlag_true proj ops _ h0 hops]

/-- Witness for C7's amended theorem: the empty payload on the baseline tile
followed by a label addition and a disposal still reports geometry. -/
theorem hasGeometry_after_empty_payload_witness :
    (initialTile.setDecodedTile trivialProj (some emptyPayload)).hasGeometry = true ∧
    (applyOps trivialProj (initialTile.setDecodedTile trivialProj (some emptyPayload))
      [TileOp.addText exampleLabel, TileOp.disposeOp]).hasGeometry = true :=
  hasGeometry_after_empty_payload initialTile trivialProj emptyPayload
    [TileOp.addText exampleLabel, TileOp.disposeOp] (by decide) (by decide)

end HarpTile
